import Mathlib

/-!
Verification of the risk-classification and alerting core of the
CardioCheck dashboard (app.py).  The submit handler of the page
"Diagnosa Pasien" and the function create_pdf are embedded shallowly:
probabilities become rationals, Python strings become Lean strings, and
the Python string methods strip, replace and upper are modelled on the
underlying character lists so that everything is executable.
-/

/-- Model of Python str.strip on a character list: drop whitespace from
both ends. -/
def pyStripList (l : List Char) : List Char :=
  ((l.dropWhile Char.isWhitespace).reverse.dropWhile Char.isWhitespace).reverse

/-- Model of Python str.strip. -/
def pyStrip (s : String) : String := String.mk (pyStripList s.data)

/-- Model of Python str.replace on character lists: scan left to right,
replacing each non-overlapping occurrence of pat by repl.  The Nat
argument is fuel; with fuel at least the length of the list and a
non-empty pattern the scan always terminates before the fuel does. -/
def pyReplaceFuel (pat repl : List Char) : Nat → List Char → List Char
  | 0, rest => rest
  | fuel + 1, l =>
    match l with
    | [] => []
    | c :: cs =>
      if pat.isPrefixOf l then repl ++ pyReplaceFuel pat repl fuel (l.drop pat.length)
      else c :: pyReplaceFuel pat repl fuel cs

/-- Model of Python str.replace (left-to-right, non-overlapping). -/
def pyReplace (s pat repl : String) : String :=
  String.mk (pyReplaceFuel pat.data repl.data s.data.length s.data)

/-- Model of Python str.upper. -/
def pyUpper (s : String) : String := String.mk (s.data.map Char.toUpper)

/-- The three risk zones of the branch on pred_proba in the submit
handler (the spec calls them tiers). -/
inductive RiskTier where
  | LOW
  | MEDIUM
  | HIGH
deriving DecidableEq, Repr

/-- The branch on pred_proba in the submit handler, viewed as the tier
it selects: if pred_proba > 0.50 the red zone, elif pred_proba > 0.20
the yellow zone, else the green zone. -/
def classify (pred_proba : ℚ) : RiskTier :=
  if pred_proba > 0.50 then RiskTier.HIGH
  else if pred_proba > 0.20 then RiskTier.MEDIUM
  else RiskTier.LOW

/-- The variable final_result_text assigned in each branch of the risk
zone conditional. -/
def final_result_text (pred_proba : ℚ) : String :=
  if pred_proba > 0.50 then "RISIKO TINGGI (Positif Penjakit Jantung)"
  else if pred_proba > 0.20 then "RISIKO MENENGAH (Waspada)"
  else "RISIKO RENDAH (Aman)"

/-- The advisory markdown line shown in each branch of the risk zone
conditional.  The source writes the same literal in the HIGH and the
MEDIUM branch. -/
def saran (pred_proba : ℚ) : String :=
  if pred_proba > 0.50 then "Saran: Segera lakukan pemeriksaan Angiografi."
  else if pred_proba > 0.20 then "Saran: Segera lakukan pemeriksaan Angiografi."
  else "Saran: Pertahankan pola hidup sehat."

/-- The alert string appended when trestbps >= 140. -/
def bp_alert (trestbps : ℕ) : String :=
  "🔴 **Tekanan Darah Tinggi (" ++ toString trestbps ++ " mmHg)**"

/-- The alert string appended when chol >= 240. -/
def chol_alert (chol : ℕ) : String :=
  "🔴 **Kolesterol Tinggi (" ++ toString chol ++ " mg/dl)**"

/-- The safety net list: start from the empty list, append the blood
pressure alert when trestbps >= 140, then append the cholesterol alert
when chol >= 240. -/
def safety_alerts (trestbps chol : ℕ) : List String :=
  (if 140 ≤ trestbps then [bp_alert trestbps] else []) ++
    (if 240 ≤ chol then [chol_alert chol] else [])

/-- The thirteen clinical fields collected by the form, in the order of
the input DataFrame. -/
structure PatientRecord where
  age : ℕ
  sex : ℕ
  cp : ℕ
  trestbps : ℕ
  chol : ℕ
  fbs : ℕ
  restecg : ℕ
  thalach : ℕ
  exang : ℕ
  oldpeak : ℚ
  slope : ℕ
  ca : ℚ
  thal : ℕ
deriving DecidableEq, Repr

/-- The dict patient_data_pdf built before the download button, as an
ordered key/value list (Python dicts preserve insertion order). -/
def patient_data_pdf (rec : PatientRecord) : List (String × String) :=
  [("Usia / Gender", toString rec.age ++ " th / " ++
      (if rec.sex = 1 then "Laki-laki" else "Perempuan")),
   ("Tekanan Darah", toString rec.trestbps ++ " mmHg"),
   ("Kolesterol", toString rec.chol ++ " mg/dl"),
   ("Gula Darah", if rec.fbs = 1 then "Tinggi (>120)" else "Normal"),
   ("Nyeri Dada",
      (["Typical", "Atypical", "Non-anginal", "Asymptomatic"].getD (rec.cp - 1) "")),
   ("Detak Jantung Max", toString rec.thalach ++ " bpm"),
   ("ST Depression", toString rec.oldpeak)]

/-- The cleaning applied to one alert inside create_pdf: three
successive replace calls deleting the bold markers, the red circle and
the warning sign. -/
def clean_alert (alert : String) : String :=
  pyReplace (pyReplace (pyReplace alert "**" "") "🔴" "") "⚠️" ""

/-- The text of one alert line of the PDF: the cleaned alert, stripped,
preceded by a dash and a space. -/
def pdf_alert_line (alert : String) : String :=
  "- " ++ pyStrip (clean_alert alert)

/-- One rendered cell of the PDF, tagged by the block of create_pdf
that wrote it. -/
inductive PdfItem where
  | headerTitle (s : String)
  | headerSubtitle (s : String)
  | dateLine (s : String)
  | sectionHeader (s : String)
  | nameLine (s : String)
  | fieldLine (k v : String)
  | conclusionLine (s : String)
  | probaLine (p : ℚ)
  | alertsHeader (s : String)
  | alertLine (s : String)
  | disclaimer (s : String)
deriving DecidableEq, Repr

/-- The header block of create_pdf: title, subtitle and the date line
(the timestamp is an input here, datetime.now in the source). -/
def pdf_header (now : String) : List PdfItem :=
  [PdfItem.headerTitle "Prediksi Penyakit Jantung - Laporan Medis",
   PdfItem.headerSubtitle "Sistem Deteksi Dini Penyakit Jantung Berbasis AI",
   PdfItem.dateLine ("Tanggal Pemeriksaan: " ++ now)]

/-- Block 1 of create_pdf: section header, upper-cased patient name,
then one line per entry of patient_data. -/
def identity_section (patient_name : String) (patient_data : List (String × String)) :
    List PdfItem :=
  PdfItem.sectionHeader "1. Identitas & Klinis Pasien" ::
    PdfItem.nameLine (": " ++ pyUpper patient_name) ::
      patient_data.map (fun kv => PdfItem.fieldLine kv.1 kv.2)

/-- Block 2 of create_pdf: section header, conclusion line, probability
line. -/
def result_section (result_label : String) (proba : ℚ) : List PdfItem :=
  [PdfItem.sectionHeader "2. Hasil Analisis AI",
   PdfItem.conclusionLine (": " ++ result_label),
   PdfItem.probaLine proba]

/-- Block 3 of create_pdf, guarded by the truthiness of alerts: section
header then one cleaned line per alert. -/
def alert_section (alerts : List String) : List PdfItem :=
  if alerts.isEmpty then []
  else
    PdfItem.alertsHeader "3. Peringatan Tanda Vital (Safety Net)" ::
      alerts.map (fun a => PdfItem.alertLine (pdf_alert_line a))

/-- The unconditional disclaimer cell at the bottom of the page. -/
def disclaimer_line : PdfItem :=
  PdfItem.disclaimer
    "Dokumen ini dihasilkan oleh komputer (CDSS). Validasi dokter tetap diperlukan."

/-- create_pdf as the ordered list of cells it writes. -/
def create_pdf (now patient_name : String) (patient_data : List (String × String))
    (result_label : String) (proba : ℚ) (alerts : List String) : List PdfItem :=
  pdf_header now ++ identity_section patient_name patient_data ++
    result_section result_label proba ++ alert_section alerts ++ [disclaimer_line]

/-- The suggested download file name built from the patient name. -/
def file_name (name : String) : String :=
  "Laporan_" ++ pyReplace name " " "_" ++ ".pdf"

/-- The two inference steps of the handler, recorded as effects. -/
inductive Effect where
  | transform
  | predict_proba
deriving DecidableEq, Repr

/-- The ways the handler can stop without a result: the blank-name
early stop, or the generic exception handler around the pipeline. -/
inductive DiagError where
  | missingIdentifier
  | exception (msg : String)
deriving DecidableEq, Repr

/-- Everything the handler presents for one submission. -/
structure Output where
  final_result_text : String
  saran : String
  pred_proba : ℚ
  alerts : List String
  file_name : String
  pdf_bytes : List PdfItem
deriving DecidableEq, Repr

/-- The submit handler of the page Diagnosa Pasien: validate the name
(stop with no work done when its strip is empty), then transform,
predict, classify, build the alerts, the PDF and the file name.  The
predicted probability is the input pred_proba, the answer of the
opaque model; the first component records which inference effects
ran. -/
def runSubmit (now name : String) (rec : PatientRecord) (pred_proba : ℚ) :
    List Effect × Except DiagError Output :=
  if pyStrip name = "" then ([], Except.error DiagError.missingIdentifier)
  else
    ([Effect.transform, Effect.predict_proba],
     Except.ok
       { final_result_text := final_result_text pred_proba
         saran := saran pred_proba
         pred_proba := pred_proba
         alerts := safety_alerts rec.trestbps rec.chol
         file_name := file_name name
         pdf_bytes := create_pdf now name (patient_data_pdf rec)
           (final_result_text pred_proba) pred_proba
           (safety_alerts rec.trestbps rec.chol) })

/-- The demo record filled by the demo button, with the remaining form
defaults. -/
def demo_record : PatientRecord :=
  { age := 58, sex := 1, cp := 4, trestbps := 150, chol := 240, fbs := 0,
    restecg := 0, thalach := 110, exang := 0, oldpeak := 2.5, slope := 1,
    ca := 0, thal := 3 }

/-- Model of Python dict.get with a default. -/
def dict_get (d : List (String × String)) (k default : String) : String :=
  match d.lookup k with
  | some v => v
  | none => default

/-- The translation dict of the local SHAP panel. -/
def label_mapping : List (String × String) :=
  [("age", "Usia Pasien"),
   ("chol", "Kolesterol (mg/dl)"),
   ("trestbps", "Tekanan Darah (mmHg)"),
   ("thalach", "Detak Jantung Max"),
   ("oldpeak", "Depresi ST (Oldpeak)"),
   ("ca", "Jml Pembuluh Darah Utama"),
   ("sex_1.0", "Gender: Laki-laki"),
   ("sex_0.0", "Gender: Perempuan"),
   ("cp_1.0", "Nyeri Dada: Typical Angina (Berat)"),
   ("cp_2.0", "Nyeri Dada: Atypical Angina"),
   ("cp_3.0", "Nyeri Dada: Non-Anginal"),
   ("cp_4.0", "Nyeri Dada: Asymptomatic (Tanpa Nyeri)"),
   ("exang_1.0", "Nyeri Olahraga: Ya"),
   ("exang_0.0", "Nyeri Olahraga: Tidak"),
   ("fbs_1.0", "Gula Darah: Tinggi (>120)"),
   ("fbs_0.0", "Gula Darah: Normal"),
   ("slope_1.0", "Slope ST: Naik (Upsloping)"),
   ("slope_2.0", "Slope ST: Datar (Flat)"),
   ("slope_3.0", "Slope ST: Turun (Downsloping)"),
   ("thal_3.0", "Thalassemia: Normal"),
   ("thal_6.0", "Thalassemia: Cacat Tetap"),
   ("thal_7.0", "Thalassemia: Cacat Reversibel"),
   ("restecg_0.0", "EKG: Normal"),
   ("restecg_1.0", "EKG: ST-T Abnormality"),
   ("restecg_2.0", "EKG: LV Hypertrophy")]

/-- The translation dict of the global SHAP tab. -/
def label_mapping_global : List (String × String) :=
  [("age", "Usia Pasien"),
   ("chol", "Kolesterol (mg/dl)"),
   ("trestbps", "Tekanan Darah (mmHg)"),
   ("thalach", "Detak Jantung Max"),
   ("oldpeak", "Depresi ST (Oldpeak)"),
   ("ca", "Jml Pembuluh Darah Utama"),
   ("sex_1.0", "Gender: Laki-laki"),
   ("sex_0.0", "Gender: Perempuan"),
   ("cp_1.0", "Nyeri: Typical"),
   ("cp_2.0", "Nyeri: Atypical"),
   ("cp_3.0", "Nyeri: Non-Anginal"),
   ("cp_4.0", "Nyeri: Asymptomatic"),
   ("exang_1.0", "Nyeri Olahraga: Ya"),
   ("exang_0.0", "Nyeri Olahraga: Tidak"),
   ("fbs_1.0", "Gula Darah: Tinggi"),
   ("fbs_0.0", "Gula Darah: Normal"),
   ("slope_1.0", "Slope: Naik"),
   ("slope_2.0", "Slope: Datar"),
   ("slope_3.0", "Slope: Turun"),
   ("thal_3.0", "Thal: Normal"),
   ("thal_6.0", "Thal: Cacat Tetap"),
   ("thal_7.0", "Thal: Reversibel"),
   ("restecg_0.0", "EKG: Normal"),
   ("restecg_1.0", "EKG: ST-T Abnorm"),
   ("restecg_2.0", "EKG: LV Hyper")]

/-- label_mapping.get(name, name) of the local SHAP panel. -/
def readable_feat_name (n : String) : String := dict_get label_mapping n n

/-- label_mapping.get(name, name) of the global SHAP tab. -/
def readable_feat_name_global (n : String) : String := dict_get label_mapping_global n n

/-- The list comprehension readable_feat_names of the local panel. -/
def readable_feat_names (feat_names : List String) : List String :=
  feat_names.map readable_feat_name

/-!  Helper lemmas about the alert strings.  -/

theorem data_getElem_ne (i : ℕ) {s t : String} (h : s.data[i]? ≠ t.data[i]?) :
    s ≠ t :=
  fun he => h (by rw [he])

theorem bp_alert_data_four (b : ℕ) : (bp_alert b).data[4]? = some 'T' := by
  unfold bp_alert
  rw [String.data_append, String.data_append]
  have h1 : (4 : ℕ) < ("🔴 **Tekanan Darah Tinggi (".data ++ (toString b).data).length := by
    rw [List.length_append]
    have h2 : "🔴 **Tekanan Darah Tinggi (".data.length = 26 := by decide
    omega
  rw [List.getElem?_append_left h1, List.getElem?_append_left (by decide)]
  decide

theorem chol_alert_data_four (c : ℕ) : (chol_alert c).data[4]? = some 'K' := by
  unfold chol_alert
  rw [String.data_append, String.data_append]
  have h1 : (4 : ℕ) < ("🔴 **Kolesterol Tinggi (".data ++ (toString c).data).length := by
    rw [List.length_append]
    have h2 : "🔴 **Kolesterol Tinggi (".data.length = 23 := by decide
    omega
  rw [List.getElem?_append_left h1, List.getElem?_append_left (by decide)]
  decide

theorem bp_alert_ne_chol_alert (b c : ℕ) : bp_alert b ≠ chol_alert c :=
  data_getElem_ne 4 (by rw [bp_alert_data_four, chol_alert_data_four]; decide)

theorem bp_alert_data_zero (b : ℕ) : (bp_alert b).data[0]? = some '🔴' := by
  unfold bp_alert
  rw [String.data_append, String.data_append]
  have h1 : (0 : ℕ) < ("🔴 **Tekanan Darah Tinggi (".data ++ (toString b).data).length := by
    rw [List.length_append]
    have h2 : "🔴 **Tekanan Darah Tinggi (".data.length = 26 := by decide
    omega
  rw [List.getElem?_append_left h1, List.getElem?_append_left (by decide)]
  decide

theorem chol_alert_data_zero (c : ℕ) : (chol_alert c).data[0]? = some '🔴' := by
  unfold chol_alert
  rw [String.data_append, String.data_append]
  have h1 : (0 : ℕ) < ("🔴 **Kolesterol Tinggi (".data ++ (toString c).data).length := by
    rw [List.length_append]
    have h2 : "🔴 **Kolesterol Tinggi (".data.length = 23 := by decide
    omega
  rw [List.getElem?_append_left h1, List.getElem?_append_left (by decide)]
  decide

theorem pdf_alert_line_data_zero (a : String) :
    (pdf_alert_line a).data[0]? = some '-' := by
  unfold pdf_alert_line
  rw [String.data_append]
  rw [List.getElem?_append_left (by decide)]
  decide

/-- Claim C1: for every probability p in the unit interval the risk
zone branch yields LOW when p is at most 0.20, MEDIUM when p lies in
(0.20, 0.50], and HIGH when p exceeds 0.50; in particular 0.20 is LOW,
0.50 is MEDIUM and 0.5000001 is HIGH. -/
theorem C1_classify_thresholds (p : ℚ) :
    (0 ≤ p → p ≤ 0.20 → classify p = RiskTier.LOW) ∧
    (0.20 < p → p ≤ 0.50 → classify p = RiskTier.MEDIUM) ∧
    (0.50 < p → p ≤ 1 → classify p = RiskTier.HIGH) ∧
    classify 0.20 = RiskTier.LOW ∧ classify 0.50 = RiskTier.MEDIUM ∧
    classify 0.5000001 = RiskTier.HIGH := by
  refine ⟨fun h0 h1 => ?_, fun h0 h1 => ?_, fun h0 h1 => ?_, ?_, ?_, ?_⟩ <;>
    unfold classify <;> split_ifs with ha hb <;> first | rfl | linarith

theorem C1_classify_thresholds_witness :
    (0.20 : ℚ) < 0.30 ∧ (0.30 : ℚ) ≤ 0.50 ∧ classify 0.30 = RiskTier.MEDIUM :=
  ⟨by norm_num, by norm_num,
   (C1_classify_thresholds 0.30).2.1 (by norm_num) (by norm_num)⟩

/-- Claim C2: the blood pressure alert is in the safety net list
exactly when trestbps is at least 140, the cholesterol alert exactly
when chol is at least 240, the blood pressure alert comes first when
both fire, and the list is empty when neither fires. -/
theorem C2_safety_net (b c : ℕ) :
    (140 ≤ b → bp_alert b ∈ safety_alerts b c) ∧
    (b < 140 → bp_alert b ∉ safety_alerts b c) ∧
    (240 ≤ c → chol_alert c ∈ safety_alerts b c) ∧
    (c < 240 → chol_alert c ∉ safety_alerts b c) ∧
    (140 ≤ b → 240 ≤ c → safety_alerts b c = [bp_alert b, chol_alert c]) ∧
    (b < 140 → c < 240 → safety_alerts b c = []) := by
  unfold safety_alerts
  by_cases hb : 140 ≤ b <;> by_cases hc : 240 ≤ c <;>
    simp [hb, hc, bp_alert_ne_chol_alert, (bp_alert_ne_chol_alert b c).symm]

theorem C2_safety_net_witness :
    (140 ≤ 150 ∧ 240 ≤ 260) ∧
      safety_alerts 150 260 = [bp_alert 150, chol_alert 260] :=
  ⟨⟨by decide, by decide⟩,
   (C2_safety_net 150 260).2.2.2.2.1 (by decide) (by decide)⟩

/-- Claim C3: a blank or whitespace-only name stops the handler with
the missing identifier outcome and an empty effect trace, so neither
the transform nor the prediction runs and no result is produced; a
non-blank name passes the check and both inference effects run with a
result. -/
theorem C3_blank_name_stops (now name : String) (rec : PatientRecord) (p : ℚ) :
    (pyStrip name = "" →
      runSubmit now name rec p = ([], Except.error DiagError.missingIdentifier)) ∧
    (pyStrip name ≠ "" →
      (runSubmit now name rec p).1 = [Effect.transform, Effect.predict_proba] ∧
        ∃ o, (runSubmit now name rec p).2 = Except.ok o) := by
  constructor
  · intro h
    simp [runSubmit, h]
  · intro h
    rw [runSubmit, if_neg h]
    exact ⟨rfl, _, rfl⟩

theorem C3_blank_name_stops_witness :
    (pyStrip "   " = "" ∧
      runSubmit "d" "   " demo_record 0 =
        ([], Except.error DiagError.missingIdentifier)) ∧
    (pyStrip "Budi Santoso" ≠ "" ∧
      (runSubmit "d" "Budi Santoso" demo_record 0).1 =
        [Effect.transform, Effect.predict_proba]) :=
  ⟨⟨by decide, (C3_blank_name_stops "d" "   " demo_record 0).1 (by decide)⟩,
   ⟨by decide,
    ((C3_blank_name_stops "d" "Budi Santoso" demo_record 0).2 (by decide)).1⟩⟩

/-- Claim C4 counterexample: 0.30 falls in the MEDIUM zone and 0.70 in
the HIGH zone, yet the advisory line shown for both is the same string,
and the HIGH advisory is not the English text the claim states; this
refutes the claim that the MEDIUM advisory differs from the HIGH
advisory. -/
theorem C4_counterexample :
    classify 0.30 = RiskTier.MEDIUM ∧ classify 0.70 = RiskTier.HIGH ∧
    saran 0.30 = saran 0.70 ∧
    saran 0.70 ≠ "urgent further cardiac workup (e.g., angiography) recommended." := by
  have h3 : saran 0.30 = "Saran: Segera lakukan pemeriksaan Angiografi." := by
    norm_num [saran]
  have h7 : saran 0.70 = "Saran: Segera lakukan pemeriksaan Angiografi." := by
    norm_num [saran]
  refine ⟨by norm_num [classify], by norm_num [classify], by rw [h3, h7], ?_⟩
  rw [h7]
  decide

/-- Claim C4 amended: every tier has a fixed advisory line, but the
HIGH and MEDIUM branches show the same one, while LOW shows a different
one. -/
theorem C4_advisory_text (p : ℚ) :
    (classify p = RiskTier.HIGH →
      saran p = "Saran: Segera lakukan pemeriksaan Angiografi.") ∧
    (classify p = RiskTier.MEDIUM →
      saran p = "Saran: Segera lakukan pemeriksaan Angiografi.") ∧
    (classify p = RiskTier.LOW →
      saran p = "Saran: Pertahankan pola hidup sehat.") := by
  unfold classify saran
  split_ifs <;> simp_all

theorem C4_advisory_text_witness :
    classify 0.70 = RiskTier.HIGH ∧
      saran 0.70 = "Saran: Segera lakukan pemeriksaan Angiografi." :=
  ⟨by norm_num [classify],
   (C4_advisory_text 0.70).1 (by norm_num [classify])⟩

/-- Claim C5 counterexample: at probability 3/2, which lies outside the
unit interval, the handler does not fail at all; the probability flows
into the zone branch and yields the HIGH result text. -/
theorem C5_counterexample :
    (1 : ℚ) < 3 / 2 ∧
    Except.map Output.final_result_text
        (runSubmit "d" "Budi" demo_record (3 / 2)).2 =
      Except.ok "RISIKO TINGGI (Positif Penjakit Jantung)" ∧
    classify (3 / 2) = RiskTier.HIGH := by
  have h : ¬ (pyStrip "Budi" = "") := by decide
  refine ⟨by norm_num, ?_, by norm_num [classify]⟩
  rw [runSubmit, if_neg h]
  show Except.ok (final_result_text (3 / 2)) = _
  norm_num [final_result_text]

/-- Claim C5 amended: the handler performs no range check on the
predicted probability; for every probability, in or out of the unit
interval, a non-blank name yields a normal result built from that
probability. -/
theorem C5_no_probability_check (now name : String) (rec : PatientRecord) (p : ℚ)
    (h : pyStrip name ≠ "") :
    ∃ o, (runSubmit now name rec p).2 = Except.ok o ∧
      o.final_result_text = final_result_text p ∧ o.pred_proba = p := by
  rw [runSubmit, if_neg h]
  exact ⟨_, rfl, rfl, rfl⟩

theorem C5_no_probability_check_witness :
    pyStrip "Budi" ≠ "" ∧
    ∃ o, (runSubmit "d" "Budi" demo_record (3 / 2)).2 = Except.ok o ∧
      o.final_result_text = final_result_text (3 / 2) ∧ o.pred_proba = 3 / 2 :=
  ⟨by decide, C5_no_probability_check "d" "Budi" demo_record (3 / 2) (by decide)⟩

/-- Claim C6 counterexample: the exclamation mark of the identifier
survives into the suggested file name, although it is neither
alphanumeric nor the joining character nor part of the fixed parts;
only spaces are replaced. -/
theorem C6_counterexample :
    file_name "Budi!Santoso" = "Laporan_Budi!Santoso.pdf" ∧
    Char.isAlphanum '!' = false ∧ ('!' : Char) ≠ '_' ∧ ('!' : Char) ≠ '.' ∧
    '!' ∈ (file_name "Budi!Santoso").data := by
  decide

/-- On a single-character pattern the replace scan is a plain map, as
long as the fuel covers the list. -/
theorem pyReplaceFuel_space (fuel : ℕ) :
    ∀ l : List Char, l.length ≤ fuel →
      pyReplaceFuel [' '] ['_'] fuel l =
        l.map (fun c => if c = ' ' then '_' else c) := by
  induction fuel with
  | zero =>
    intro l h
    cases l with
    | nil => rfl
    | cons c cs => simp at h
  | succ n ih =>
    intro l h
    cases l with
    | nil => rfl
    | cons c cs =>
      have hlen : cs.length ≤ n := by
        simp only [List.length_cons] at h
        omega
      by_cases hc : c = ' '
      · subst hc
        have hp : [' '].isPrefixOf (' ' :: cs) = true := by
          simp [List.isPrefixOf]
        simp [pyReplaceFuel, hp, ih cs hlen]
      · have hp : [' '].isPrefixOf (c :: cs) = false := by
          simp [List.isPrefixOf]
          exact fun he => hc he.symm
        simp [pyReplaceFuel, hp, hc, ih cs hlen]

/-- The character list of the replaced name. -/
theorem pyReplace_space_data (name : String) :
    (pyReplace name " " "_").data =
      name.data.map (fun c => if c = ' ' then '_' else c) :=
  pyReplaceFuel_space name.data.length name.data le_rfl

/-- Claim C6 amended: the suggested file name is the fixed stem, then
the identifier with every space, and only every space, replaced by an
underscore, then the fixed extension; no space survives, but every
other non-alphanumeric character passes through unchanged. -/
theorem C6_file_name_spaces (name : String) :
    (file_name name).data =
      "Laporan_".data ++
        name.data.map (fun c => if c = ' ' then '_' else c) ++ ".pdf".data ∧
    ' ' ∉ (pyReplace name " " "_").data ∧
    (∀ c ∈ name.data, c ≠ ' ' → c ∈ (pyReplace name " " "_").data) := by
  refine ⟨?_, ?_, ?_⟩
  · unfold file_name
    rw [String.data_append, String.data_append, pyReplace_space_data]
  · rw [pyReplace_space_data]
    intro hmem
    simp only [List.mem_map] at hmem
    obtain ⟨c, _, hc⟩ := hmem
    by_cases h : c = ' ' <;> simp [h] at hc
  · intro c hc hne
    rw [pyReplace_space_data]
    refine List.mem_map.mpr ⟨c, hc, by simp [hne]⟩

theorem C6_file_name_spaces_witness :
    (file_name "a b!").data =
      "Laporan_".data ++
        "a b!".data.map (fun c => if c = ' ' then '_' else c) ++ ".pdf".data ∧
    ' ' ∉ (pyReplace "a b!" " " "_").data ∧
    (∀ c ∈ "a b!".data, c ≠ ' ' → c ∈ (pyReplace "a b!" " " "_").data) :=
  C6_file_name_spaces "a b!"

/-- Claim C7: the display-name translation is total with a pass-through
default, for the dict of the local panel and for the dict of the global
tab alike: a name that is a key translates to its value, any other name
comes back unchanged. -/
theorem C7_label_mapping_total (n v : String) :
    (label_mapping.lookup n = some v → readable_feat_name n = v) ∧
    (label_mapping.lookup n = none → readable_feat_name n = n) ∧
    (label_mapping_global.lookup n = some v → readable_feat_name_global n = v) ∧
    (label_mapping_global.lookup n = none → readable_feat_name_global n = n) := by
  refine ⟨fun h => ?_, fun h => ?_, fun h => ?_, fun h => ?_⟩ <;>
    simp [readable_feat_name, readable_feat_name_global, dict_get, h]

theorem C7_label_mapping_total_witness :
    (label_mapping.lookup "age" = some "Usia Pasien" ∧
      readable_feat_name "age" = "Usia Pasien") ∧
    (label_mapping.lookup "unknown_col" = none ∧
      readable_feat_name "unknown_col" = "unknown_col") :=
  ⟨⟨by decide, (C7_label_mapping_total "age" "Usia Pasien").1 (by decide)⟩,
   ⟨by decide,
    (C7_label_mapping_total "unknown_col" "Usia Pasien").2.1 (by decide)⟩⟩

/-- Claim C8: the alert list of the result does not depend on the
predicted probability; two runs on the same record with different
probabilities carry identical alert lists. -/
theorem C8_alerts_independent (now name : String) (rec : PatientRecord) (p q : ℚ) :
    Except.map Output.alerts (runSubmit now name rec p).2 =
      Except.map Output.alerts (runSubmit now name rec q).2 := by
  by_cases h : pyStrip name = "" <;> simp [runSubmit, h, Except.map]

/-- Claim C9: the PDF cells come in the fixed block order header and
date, patient identity, clinical fields, conclusion, probability,
safety net alerts, disclaimer; the alert block appears exactly when the
alert list is non-empty and the disclaimer is always present. -/
theorem C9_pdf_sections (now pn : String) (d : List (String × String))
    (label : String) (proba : ℚ) (alerts : List String) :
    create_pdf now pn d label proba alerts =
      pdf_header now ++ identity_section pn d ++ result_section label proba ++
        alert_section alerts ++ [disclaimer_line] ∧
    ((∃ s, PdfItem.alertsHeader s ∈ create_pdf now pn d label proba alerts) ↔
      alerts ≠ []) ∧
    disclaimer_line ∈ create_pdf now pn d label proba alerts := by
  refine ⟨rfl, ?_, ?_⟩
  · cases alerts with
    | nil =>
      simp [create_pdf, pdf_header, identity_section, result_section,
        alert_section, disclaimer_line]
    | cons a as =>
      simp only [ne_eq, reduceCtorEq, not_false_iff, iff_true]
      refine ⟨"3. Peringatan Tanda Vital (Safety Net)", ?_⟩
      simp [create_pdf, alert_section]
  · simp [create_pdf, disclaimer_line]

theorem C9_pdf_sections_witness :
    ((∃ s, PdfItem.alertsHeader s ∈
        create_pdf "d" "Budi" [] "X" 0 [bp_alert 150]) ↔
      [bp_alert 150] ≠ []) ∧
    disclaimer_line ∈ create_pdf "d" "Budi" [] "X" 0 [bp_alert 150] :=
  ⟨(C9_pdf_sections "d" "Budi" [] "X" 0 [bp_alert 150]).2.1,
   (C9_pdf_sections "d" "Budi" [] "X" 0 [bp_alert 150]).2.2⟩

/-- Claim C10: each alert reaches the PDF as the alert with the bold
markers, the red circle and the warning sign removed and the ends
stripped, preceded by a dash and a space; in particular the PDF line
for either safety net alert never equals the on-screen alert string
itself. -/
theorem C10_pdf_alert_cleaning (now pn : String) (d : List (String × String))
    (label : String) (proba : ℚ) (alerts : List String) :
    (∀ a ∈ alerts,
      PdfItem.alertLine ("- " ++ pyStrip (clean_alert a)) ∈
        create_pdf now pn d label proba alerts) ∧
    (∀ b : ℕ, pdf_alert_line (bp_alert b) ≠ bp_alert b) ∧
    (∀ c : ℕ, pdf_alert_line (chol_alert c) ≠ chol_alert c) := by
  refine ⟨fun a ha => ?_, fun b => ?_, fun c => ?_⟩
  · have hmem : PdfItem.alertLine (pdf_alert_line a) ∈ alert_section alerts := by
      cases alerts with
      | nil => exact absurd ha (List.not_mem_nil a)
      | cons x xs =>
        simp only [alert_section, List.isEmpty_cons, Bool.false_eq_true,
          if_false]
        exact List.mem_cons_of_mem _ (List.mem_map_of_mem _ ha)
    unfold create_pdf
    simp only [List.mem_append]
    exact Or.inl (Or.inr hmem)
  · exact data_getElem_ne 0
      (by rw [pdf_alert_line_data_zero, bp_alert_data_zero]; decide)
  · exact data_getElem_ne 0
      (by rw [pdf_alert_line_data_zero, chol_alert_data_zero]; decide)

theorem C10_pdf_alert_cleaning_witness :
    bp_alert 150 ∈ [bp_alert 150] ∧
    PdfItem.alertLine ("- " ++ pyStrip (clean_alert (bp_alert 150))) ∈
      create_pdf "d" "Budi" [] "X" 0 [bp_alert 150] :=
  ⟨by simp,
   (C10_pdf_alert_cleaning "d" "Budi" [] "X" 0 [bp_alert 150]).1
     (bp_alert 150) (by simp)⟩
